import Mathlib

/-!
Shallow embedding of the session controller of the DataAnalysis
application (src/App.tsx, src/types.ts).  The controller holds six
pieces of React state and exposes three operations: handleFileSelect
(upload + analysis), handleSendMessage (chat turn) and handleReset.
Asynchronous library and remote calls (file.text(), parseExcel,
parsePDF, analyzeData, chatWithData) live in files absent from the
repository snapshot; their outcomes enter the model as parameters
(an environment record for the upload path, a call function for the
chat path), while the dispatch and state updates are translated
directly from App.tsx.
-/

deriving instance DecidableEq for Except

namespace DataAnalysis

/-- Message author, from types.ts: role is user or model. -/
inductive Role
  | user
  | model
deriving DecidableEq, Repr

/-- ChatMessage from types.ts: role, text, creation timestamp.
Timestamps (JS Date) are modelled as naturals. -/
structure ChatMessage where
  role : Role
  text : String
  timestamp : Nat
deriving DecidableEq, Repr

/-- A chart data point of DataAnalysisResult (types.ts). The numeric
value is modelled as an integer; no claim depends on its arithmetic. -/
structure ChartPoint where
  name : String
  value : Int
  category : Option String
deriving DecidableEq, Repr

/-- Trend direction of a statistic entry (types.ts). -/
inductive Trend
  | up
  | down
  | neutral
deriving DecidableEq, Repr

/-- A statistics entry of DataAnalysisResult (types.ts): label,
string-or-number value, optional trend. -/
structure Statistic where
  label : String
  value : String ⊕ Int
  trend : Option Trend
deriving DecidableEq, Repr

/-- DataAnalysisResult from types.ts. -/
structure DataAnalysisResult where
  summary : String
  keyInsights : List String
  suggestions : List String
  chartData : List ChartPoint
  statistics : List Statistic
deriving DecidableEq, Repr

/-- FileData from types.ts: name, extracted content, detected type. -/
structure FileData where
  name : String
  content : String
  type : String
deriving DecidableEq, Repr

/-- The six useState cells of the App component (App.tsx). -/
structure Session where
  isProcessing : Bool
  fileData : Option FileData
  analysis : Option DataAnalysisResult
  chatMessages : List ChatMessage
  isChatLoading : Bool
  error : Option String
deriving DecidableEq, Repr

/-- The initial state of every cell at application start. -/
def initialSession : Session :=
  { isProcessing := false
    fileData := none
    analysis := none
    chatMessages := []
    isChatLoading := false
    error := none }

/-- The uploaded file handle as the controller sees it: only its name
is read synchronously; its contents arrive through async calls. -/
structure InputFile where
  name : String
deriving DecidableEq, Repr

/-- Outcomes of the asynchronous calls one handleFileSelect run can
make: file.text(), parseExcel, parsePDF (src/services/fileParser.ts,
absent from the snapshot) and analyzeData
(src/services/geminiService.ts, absent).  An Except.error carries the
thrown error's message. -/
structure UploadEnv where
  fileTextResult : Except String String
  parseExcelResult : Except String String
  parsePDFResult : Except String String
  analyzeResult : Except String DataAnalysisResult
deriving DecidableEq, Repr

/-- Modelled from the spec: parseCSV of the absent
src/services/fileParser.ts is the CSV passthrough-to-text strategy. -/
def parseCSV (text : String) : String := text

/-- JS String.split on a one-character separator, on the character
list of the string: splitting the empty string yields one empty
piece, and every separator occurrence starts a new piece. -/
def splitChars (sep : Char) : List Char → List (List Char)
  | [] => [[]]
  | c :: cs =>
      match splitChars sep cs with
      | [] => [[]]
      | r :: rs => if c = sep then [] :: r :: rs else (c :: r) :: rs

/-- ASCII lowercasing of one character, the fragment of JS
toLowerCase relevant to file extensions. -/
def charToLower (c : Char) : Char :=
  if 'A' ≤ c ∧ c ≤ 'Z' then Char.ofNat (c.toNat + 32) else c

/-- file.name.split('.').pop()?.toLowerCase() from App.tsx line 22.
JS split never yields an empty array, so pop is the last element. -/
def getExtension (name : String) : String :=
  String.mk (((splitChars '.' name.data).getLastD []).map charToLower)

/-- The message thrown for an unrecognized extension (App.tsx). -/
def unsupportedMsg : String :=
  "Unsupported file format. Please upload CSV, Excel, or PDF."

/-- The fallback used when err.message is falsy (empty). -/
def orDefault (m d : String) : String := if m = "" then d else m

/-- The generic catch-all message of handleFileSelect. -/
def processingErrMsg : String := "An error occurred during file processing."

/-- The extension dispatch of App.tsx lines 24-33: csv reads the file
text and applies parseCSV, xlsx/xls call parseExcel, pdf calls
parsePDF, anything else throws the unsupported-format error. -/
def extractContent (name : String) (env : UploadEnv) : Except String String :=
  let ext := getExtension name
  if ext = "csv" then env.fileTextResult.map parseCSV
  else if ext = "xlsx" ∨ ext = "xls" then env.parseExcelResult
  else if ext = "pdf" then env.parsePDFResult
  else .error unsupportedMsg

/-- handleFileSelect (App.tsx lines 18-48).  Sets processing, clears
the error, extracts content, stores the FileData, awaits analyzeData,
stores the analysis, resets the chat; any thrown error is caught and
recorded; the finally block clears processing. -/
def handleFileSelect (s : Session) (file : InputFile) (env : UploadEnv) :
    Session :=
  let s0 := { s with isProcessing := true, error := none }
  match extractContent file.name env with
  | .error m =>
      { s0 with
        error := some (orDefault m processingErrMsg)
        isProcessing := false }
  | .ok content =>
      let s1 :=
        { s0 with
          fileData := some ⟨file.name, content, getExtension file.name⟩ }
      match env.analyzeResult with
      | .error m =>
          { s1 with
            error := some (orDefault m processingErrMsg)
            isProcessing := false }
      | .ok result =>
          { s1 with
            analysis := some result
            chatMessages := []
            isProcessing := false }

/-- A chat-history entry as sent to the remote chat call: role and
text only, the timestamp stripped (App.tsx line 61). -/
structure StrippedMessage where
  role : Role
  text : String
deriving DecidableEq, Repr

/-- The projection chatMessages.map(m =&gt; ({role: m.role, text: m.text})). -/
def stripTimestamp (m : ChatMessage) : StrippedMessage :=
  ⟨m.role, m.text⟩

/-- The argument triple handed to chatWithData (App.tsx lines 58-62):
question text, grounding file content, prior turns. -/
structure ChatCall where
  question : String
  grounding : String
  history : List StrippedMessage
deriving DecidableEq, Repr

/-- The fixed fallback reply used when the remote reply is falsy. -/
def fallbackReply : String := "Sorry, I could not process that."

/-- The optimistic phase of handleSendMessage (App.tsx lines 53-55):
append the user message and raise the chat-loading flag, before the
remote call resolves. -/
def sendMessagePending (s : Session) (text : String) (t1 : Nat) : Session :=
  { s with
    chatMessages := s.chatMessages ++ [⟨Role.user, text, t1⟩]
    isChatLoading := true }

/-- The settling phase of handleSendMessage (App.tsx lines 63-71): on
success append a model message with the reply (or the fallback when
the reply is empty), on failure append a model message with the text
Error: followed by the message; the finally block clears the
chat-loading flag either way. -/
def sendMessageSettle (s : Session) (response : Except String String)
    (t2 : Nat) : Session :=
  match response with
  | .ok r =>
      { s with
        chatMessages :=
          s.chatMessages ++
            [⟨Role.model, if r = "" then fallbackReply else r, t2⟩]
        isChatLoading := false }
  | .error m =>
      { s with
        chatMessages := s.chatMessages ++ [⟨Role.model, "Error: " ++ m, t2⟩]
        isChatLoading := false }

/-- handleSendMessage (App.tsx lines 50-72).  Returns unchanged when
no file is loaded; otherwise runs the optimistic phase, invokes the
remote chat call on the question, the grounding content and the prior
history as captured before the append (the React closure holds the
pre-append chatMessages), and settles.  The remote chatWithData
(absent geminiService.ts) is a parameter. -/
def handleSendMessage (chatWithData : ChatCall → Except String String)
    (s : Session) (text : String) (t1 t2 : Nat) : Session :=
  match s.fileData with
  | none => s
  | some fd =>
      sendMessageSettle (sendMessagePending s text t1)
        (chatWithData ⟨text, fd.content, s.chatMessages.map stripTimestamp⟩)
        t2

/-- handleReset (App.tsx lines 74-79): clears fileData, analysis,
chatMessages and error; touches nothing else. -/
def handleReset (s : Session) : Session :=
  { s with
    fileData := none
    analysis := none
    chatMessages := []
    error := none }

/-! ## Theorems about the session controller -/

/-- C3: sendMessage with no file loaded is a silent no-op: the whole
session, chat history included, is returned unchanged and no error is
recorded. -/
theorem sendMessage_no_file_noop
    (chatWithData : ChatCall → Except String String)
    (s : Session) (text : String) (t1 t2 : Nat)
    (h : s.fileData = none) :
    handleSendMessage chatWithData s text t1 t2 = s := by
  unfold handleSendMessage
  rw [h]

/-- Witness for C3 at a concrete input: the initial session has no
file loaded, and sendMessage on it changes nothing. -/
theorem sendMessage_no_file_noop_witness :
    initialSession.fileData = none ∧
    handleSendMessage (fun _ => Except.ok "reply") initialSession "hi" 0 1 =
      initialSession :=
  ⟨rfl, sendMessage_no_file_noop (fun _ => Except.ok "reply")
    initialSession "hi" 0 1 rfl⟩

/-- C6: reset always yields a state with file, analysis, chat history
and error cleared, regardless of the prior state. -/
theorem handleReset_clears (s : Session) :
    (handleReset s).fileData = none ∧
    (handleReset s).analysis = none ∧
    (handleReset s).chatMessages = [] ∧
    (handleReset s).error = none := by
  simp [handleReset]

/-- C10: reset leaves the isProcessing and isChatLoading flags
unchanged; a reset issued between the optimistic phase and the
settling of a chat call leaves the chat-loading flag raised, and only
the settling of that call clears it. -/
theorem handleReset_frame (s : Session) (text : String)
    (out : Except String String) (t1 t2 : Nat) :
    (handleReset s).isProcessing = s.isProcessing ∧
    (handleReset s).isChatLoading = s.isChatLoading ∧
    (handleReset (sendMessagePending s text t1)).isChatLoading = true ∧
    (sendMessageSettle (handleReset (sendMessagePending s text t1)) out
        t2).isChatLoading = false := by
  cases out <;> simp [handleReset, sendMessagePending, sendMessageSettle]

/-- C5: when the remote chat call fails, the controller still appends
exactly two messages, the user message and then a model message whose
text is the string Error: followed by the failure message; the turn
is not dropped and the handler returns normally, clearing the
chat-loading flag. -/
theorem sendMessage_failure_appends
    (chatWithData : ChatCall → Except String String)
    (s : Session) (fd : FileData) (text m : String) (t1 t2 : Nat)
    (h : s.fileData = some fd)
    (hf : chatWithData
        ⟨text, fd.content, s.chatMessages.map stripTimestamp⟩ =
      Except.error m) :
    (handleSendMessage chatWithData s text t1 t2).chatMessages =
      s.chatMessages ++
        [⟨Role.user, text, t1⟩, ⟨Role.model, "Error: " ++ m, t2⟩] ∧
    (handleSendMessage chatWithData s text t1 t2).isChatLoading = false := by
  simp only [handleSendMessage, h]
  rw [hf]
  simp [sendMessagePending, sendMessageSettle]

/-- Witness for C5 at a concrete input: a loaded session, a failing
chat call, and the resulting two-message append. -/
theorem sendMessage_failure_appends_witness :
    (handleSendMessage (fun _ => Except.error "boom")
        ⟨false, some ⟨"d.csv", "a,b", "csv"⟩, none, [], false, none⟩
        "hi" 0 1).chatMessages =
      [⟨Role.user, "hi", 0⟩, ⟨Role.model, "Error: " ++ "boom", 1⟩] ∧
    (handleSendMessage (fun _ => Except.error "boom")
        ⟨false, some ⟨"d.csv", "a,b", "csv"⟩, none, [], false, none⟩
        "hi" 0 1).isChatLoading = false :=
  sendMessage_failure_appends (fun _ => Except.error "boom")
    ⟨false, some ⟨"d.csv", "a,b", "csv"⟩, none, [], false, none⟩
    ⟨"d.csv", "a,b", "csv"⟩ "hi" "boom" 0 1 rfl rfl

/-- C8: with a file loaded, the handler is exactly the settling of
the pending state on the remote call applied to the triple of the
question text, the full original file content, and the prior history
projected to role-and-text pairs; the history in that triple is the
chat history as it stood before the user message was appended, since
the pending state appends the user message to it. -/
theorem sendMessage_call_args
    (chatWithData : ChatCall → Except String String)
    (s : Session) (fd : FileData) (text : String) (t1 t2 : Nat)
    (h : s.fileData = some fd) :
    handleSendMessage chatWithData s text t1 t2 =
      sendMessageSettle (sendMessagePending s text t1)
        (chatWithData
          ⟨text, fd.content, s.chatMessages.map stripTimestamp⟩) t2 ∧
    (sendMessagePending s text t1).chatMessages =
      s.chatMessages ++ [⟨Role.user, text, t1⟩] := by
  simp only [handleSendMessage, h]
  exact ⟨trivial, rfl⟩

/-- Witness for C8 at a concrete input: a session already holding one
chat message; the call receives the pre-append one-element history. -/
theorem sendMessage_call_args_witness :
    handleSendMessage (fun (c : ChatCall) => Except.ok c.grounding)
        ⟨false, some ⟨"d.csv", "a,b", "csv"⟩, none,
          [⟨Role.user, "q0", 5⟩], false, none⟩ "hi" 7 8 =
      sendMessageSettle
        (sendMessagePending
          ⟨false, some ⟨"d.csv", "a,b", "csv"⟩, none,
            [⟨Role.user, "q0", 5⟩], false, none⟩ "hi" 7)
        ((fun (c : ChatCall) => Except.ok c.grounding)
          ⟨"hi", "a,b", [⟨Role.user, "q0"⟩]⟩) 8 ∧
    (sendMessagePending
        ⟨false, some ⟨"d.csv", "a,b", "csv"⟩, none,
          [⟨Role.user, "q0", 5⟩], false, none⟩ "hi" 7).chatMessages =
      [⟨Role.user, "q0", 5⟩] ++ [⟨Role.user, "hi", 7⟩] :=
  sendMessage_call_args (fun (c : ChatCall) => Except.ok c.grounding)
    ⟨false, some ⟨"d.csv", "a,b", "csv"⟩, none,
      [⟨Role.user, "q0", 5⟩], false, none⟩
    ⟨"d.csv", "a,b", "csv"⟩ "hi" 7 8 rfl

/-- C9: when the remote chat call succeeds with an empty reply, the
appended model message carries the fixed non-empty fallback text
Sorry, I could not process that. -/
theorem sendMessage_empty_reply_fallback
    (chatWithData : ChatCall → Except String String)
    (s : Session) (fd : FileData) (text : String) (t1 t2 : Nat)
    (h : s.fileData = some fd)
    (hf : chatWithData
        ⟨text, fd.content, s.chatMessages.map stripTimestamp⟩ =
      Except.ok "") :
    (handleSendMessage chatWithData s text t1 t2).chatMessages =
      s.chatMessages ++
        [⟨Role.user, text, t1⟩, ⟨Role.model, fallbackReply, t2⟩] ∧
    fallbackReply ≠ "" := by
  simp only [handleSendMessage, h]
  rw [hf]
  simp [sendMessagePending, sendMessageSettle]
  decide

/-- Witness for C9 at a concrete input. -/
theorem sendMessage_empty_reply_fallback_witness :
    (handleSendMessage (fun _ => Except.ok "")
        ⟨false, some ⟨"d.csv", "a,b", "csv"⟩, none, [], false, none⟩
        "hi" 0 1).chatMessages =
      [] ++ [⟨Role.user, "hi", 0⟩, ⟨Role.model, fallbackReply, 1⟩] ∧
    fallbackReply ≠ "" :=
  sendMessage_empty_reply_fallback (fun _ => Except.ok "")
    ⟨false, some ⟨"d.csv", "a,b", "csv"⟩, none, [], false, none⟩
    ⟨"d.csv", "a,b", "csv"⟩ "hi" 0 1 rfl rfl

/-- Counterexample to C4 as stated: a successful remote call that
returns the empty reply yields a model message carrying the fallback
text, which differs from the reply text, so the appended model
message does not carry the reply text on every success. -/
theorem sendMessage_reply_text_cex :
    (handleSendMessage (fun _ => Except.ok "")
        ⟨false, some ⟨"d.csv", "a,b", "csv"⟩, none, [], false, none⟩
        "hi" 0 1).chatMessages =
      [⟨Role.user, "hi", 0⟩, ⟨Role.model, fallbackReply, 1⟩] ∧
    fallbackReply ≠ "" := by
  constructor
  · rfl
  · decide

/-- C4 (amended): with a file loaded and a successful remote call
returning a non-empty reply, exactly two messages are appended in
order, first the user message with the submitted text, then a model
message with the reply text; the user message is already present in
the pending state, before the remote call resolves, and the handler
is the settling of that pending state. -/
theorem sendMessage_success_appends
    (chatWithData : ChatCall → Except String String)
    (s : Session) (fd : FileData) (text r : String) (t1 t2 : Nat)
    (h : s.fileData = some fd)
    (hf : chatWithData
        ⟨text, fd.content, s.chatMessages.map stripTimestamp⟩ =
      Except.ok r)
    (hr : r ≠ "") :
    (handleSendMessage chatWithData s text t1 t2).chatMessages =
      s.chatMessages ++
        [⟨Role.user, text, t1⟩, ⟨Role.model, r, t2⟩] ∧
    (sendMessagePending s text t1).chatMessages =
      s.chatMessages ++ [⟨Role.user, text, t1⟩] ∧
    handleSendMessage chatWithData s text t1 t2 =
      sendMessageSettle (sendMessagePending s text t1) (Except.ok r) t2 := by
  simp only [handleSendMessage, h]
  rw [hf]
  simp [sendMessagePending, sendMessageSettle, hr]

/-- Witness for C4 (amended) at a concrete input. -/
theorem sendMessage_success_appends_witness :
    (handleSendMessage (fun _ => Except.ok "fine")
        ⟨false, some ⟨"d.csv", "a,b", "csv"⟩, none, [], false, none⟩
        "hi" 0 1).chatMessages =
      [] ++ [⟨Role.user, "hi", 0⟩, ⟨Role.model, "fine", 1⟩] ∧
    (sendMessagePending
        ⟨false, some ⟨"d.csv", "a,b", "csv"⟩, none, [], false, none⟩
        "hi" 0).chatMessages = [] ++ [⟨Role.user, "hi", 0⟩] ∧
    handleSendMessage (fun _ => Except.ok "fine")
        ⟨false, some ⟨"d.csv", "a,b", "csv"⟩, none, [], false, none⟩
        "hi" 0 1 =
      sendMessageSettle
        (sendMessagePending
          ⟨false, some ⟨"d.csv", "a,b", "csv"⟩, none, [], false, none⟩
          "hi" 0) (Except.ok "fine") 1 :=
  sendMessage_success_appends (fun _ => Except.ok "fine")
    ⟨false, some ⟨"d.csv", "a,b", "csv"⟩, none, [], false, none⟩
    ⟨"d.csv", "a,b", "csv"⟩ "hi" "fine" 0 1 rfl rfl (by decide)

/-- Counterexample to C1 as stated: an upload of data.csv whose
extraction succeeds and whose analysis call fails leaves the fileData
field set to the newly uploaded file, not null, even though the run
failed; the fileData field also differs from its pre-upload value. -/
theorem upload_failure_fields_cex :
    (handleFileSelect initialSession ⟨"data.csv"⟩
        ⟨Except.ok "a,b", Except.error "x", Except.error "x",
          Except.error "analysis failed"⟩).error =
      some "analysis failed" ∧
    (handleFileSelect initialSession ⟨"data.csv"⟩
        ⟨Except.ok "a,b", Except.error "x", Except.error "x",
          Except.error "analysis failed"⟩).fileData =
      some ⟨"data.csv", "a,b", "csv"⟩ ∧
    some (⟨"data.csv", "a,b", "csv"⟩ : FileData) ≠ none ∧
    initialSession.fileData = none := by
  refine ⟨rfl, rfl, ?_, rfl⟩
  decide

/-- C1 (amended): a failing upload records the error message (or the
generic message when the thrown message is empty) and clears the
processing flag.  On an unsupported-extension or extraction failure
every other field keeps its pre-upload value; on an analysis-call
failure the fileData field is set to the newly uploaded file and
every other field keeps its pre-upload value — file and analysis are
not reset to null. -/
theorem upload_failure_state (s : Session) (file : InputFile)
    (env : UploadEnv) :
    (∀ m, extractContent file.name env = Except.error m →
      handleFileSelect s file env =
        { s with
          error := some (orDefault m processingErrMsg)
          isProcessing := false }) ∧
    (∀ c m, extractContent file.name env = Except.ok c →
      env.analyzeResult = Except.error m →
      handleFileSelect s file env =
        { s with
          fileData := some ⟨file.name, c, getExtension file.name⟩
          error := some (orDefault m processingErrMsg)
          isProcessing := false }) := by
  constructor
  · intro m hm
    simp only [handleFileSelect, hm]
  · intro c m hc hm
    simp only [handleFileSelect, hc, hm]

/-- Witness for C1 (amended) at concrete inputs: the extraction-failure
branch on report.docx and the analysis-failure branch on data.csv. -/
theorem upload_failure_state_witness :
    handleFileSelect initialSession ⟨"report.docx"⟩
        ⟨Except.ok "", Except.ok "", Except.ok "",
          Except.ok ⟨"", [], [], [], []⟩⟩ =
      { initialSession with
        error := some (orDefault unsupportedMsg processingErrMsg)
        isProcessing := false } ∧
    handleFileSelect initialSession ⟨"data.csv"⟩
        ⟨Except.ok "a,b", Except.error "x", Except.error "x",
          Except.error "analysis failed"⟩ =
      { initialSession with
        fileData := some ⟨"data.csv", "a,b", getExtension "data.csv"⟩
        error := some (orDefault "analysis failed" processingErrMsg)
        isProcessing := false } :=
  ⟨(upload_failure_state initialSession ⟨"report.docx"⟩
      ⟨Except.ok "", Except.ok "", Except.ok "",
        Except.ok ⟨"", [], [], [], []⟩⟩).1 unsupportedMsg rfl,
   (upload_failure_state initialSession ⟨"data.csv"⟩
      ⟨Except.ok "a,b", Except.error "x", Except.error "x",
        Except.error "analysis failed"⟩).2 "a,b" "analysis failed" rfl rfl⟩

/-- Counterexample to C2 as stated: an upload with an unsupported
extension, started from a session holding a previous file and a
non-empty chat history, leaves the chat history non-empty and the
previous fileData in place — the reset of chat history and the
discarding of the prior pair do not happen on every invocation. -/
theorem upload_chat_reset_cex :
    (handleFileSelect
        ⟨false, some ⟨"old.csv", "x", "csv"⟩, none,
          [⟨Role.user, "q", 0⟩], false, none⟩ ⟨"report.docx"⟩
        ⟨Except.ok "", Except.error "", Except.error "",
          Except.error ""⟩).chatMessages =
      [⟨Role.user, "q", 0⟩] ∧
    ([⟨Role.user, "q", 0⟩] : List ChatMessage) ≠ [] ∧
    (handleFileSelect
        ⟨false, some ⟨"old.csv", "x", "csv"⟩, none,
          [⟨Role.user, "q", 0⟩], false, none⟩ ⟨"report.docx"⟩
        ⟨Except.ok "", Except.error "", Except.error "",
          Except.error ""⟩).fileData =
      some ⟨"old.csv", "x", "csv"⟩ := by
  refine ⟨rfl, ?_, rfl⟩
  decide

/-- C2 (amended): only on the success path — extraction and analysis
both succeed — does handleFileSelect reset the chat history to empty
and replace the file/analysis pair wholesale with the new one, with
processing cleared and no error; a failing invocation does not
perform this reset-and-replace. -/
theorem upload_success_state (s : Session) (file : InputFile)
    (env : UploadEnv) (c : String) (result : DataAnalysisResult)
    (hc : extractContent file.name env = Except.ok c)
    (ha : env.analyzeResult = Except.ok result) :
    handleFileSelect s file env =
      { s with
        fileData := some ⟨file.name, c, getExtension file.name⟩
        analysis := some result
        chatMessages := []
        isProcessing := false
        error := none } := by
  simp only [handleFileSelect, hc, ha]

/-- Witness for C2 (amended) at a concrete input: a successful upload
from a session with a previous pair and a non-empty chat. -/
theorem upload_success_state_witness :
    handleFileSelect
        ⟨false, some ⟨"old.csv", "x", "csv"⟩,
          some ⟨"old", [], [], [], []⟩, [⟨Role.user, "q", 0⟩], false,
          none⟩ ⟨"data.csv"⟩
        ⟨Except.ok "a,b", Except.error "x", Except.error "x",
          Except.ok ⟨"ok", [], [], [], []⟩⟩ =
      { (⟨false, some ⟨"old.csv", "x", "csv"⟩,
          some ⟨"old", [], [], [], []⟩, [⟨Role.user, "q", 0⟩], false,
          none⟩ : Session) with
        fileData := some ⟨"data.csv", "a,b", getExtension "data.csv"⟩
        analysis := some ⟨"ok", [], [], [], []⟩
        chatMessages := []
        isProcessing := false
        error := none } :=
  upload_success_state
    ⟨false, some ⟨"old.csv", "x", "csv"⟩, some ⟨"old", [], [], [], []⟩,
      [⟨Role.user, "q", 0⟩], false, none⟩ ⟨"data.csv"⟩
    ⟨Except.ok "a,b", Except.error "x", Except.error "x",
      Except.ok ⟨"ok", [], [], [], []⟩⟩ "a,b" ⟨"ok", [], [], [], []⟩
    rfl rfl

/-- C7: an upload whose filename extension is outside the set csv,
xlsx, xls, pdf fails with the unsupported-format error message while
an idle session's file and analysis fields stay null and processing
ends cleared; and for each supported extension the dispatch selects
the corresponding extraction strategy: csv maps the file text through
the CSV passthrough, xlsx and xls use the spreadsheet conversion
call, pdf uses the document extraction call, returning that call's
extracted text. -/
theorem ingestion_dispatch :
    (∀ (s : Session) (file : InputFile) (env : UploadEnv),
        s.fileData = none → s.analysis = none →
        getExtension file.name ∉
          (["csv", "xlsx", "xls", "pdf"] : List String) →
        (handleFileSelect s file env).error = some unsupportedMsg ∧
        (handleFileSelect s file env).fileData = none ∧
        (handleFileSelect s file env).analysis = none ∧
        (handleFileSelect s file env).isProcessing = false) ∧
    (∀ (name : String) (env : UploadEnv), getExtension name = "csv" →
        extractContent name env = env.fileTextResult.map parseCSV) ∧
    (∀ (name : String) (env : UploadEnv),
        getExtension name = "xlsx" ∨ getExtension name = "xls" →
        extractContent name env = env.parseExcelResult) ∧
    (∀ (name : String) (env : UploadEnv), getExtension name = "pdf" →
        extractContent name env = env.parsePDFResult) := by
  refine ⟨?_, ?_, ?_, ?_⟩
  · intro s file env hf ha hext
    simp only [List.mem_cons, List.not_mem_nil, or_false, not_or] at hext
    obtain ⟨h1, h2, h3, h4⟩ := hext
    have hx : extractContent file.name env = Except.error unsupportedMsg := by
      simp [extractContent, h1, h2, h3, h4]
    simp only [handleFileSelect, hx]
    refine ⟨?_, hf, ha, trivial⟩
    have : orDefault unsupportedMsg processingErrMsg = unsupportedMsg := by
      decide
    rw [this]
  · intro name env h
    simp [extractContent, h]
  · intro name env h
    rcases h with h | h <;> simp [extractContent, h]
  · intro name env h
    simp [extractContent, h]

/-- Witness for C7 at concrete inputs: report.docx is rejected from
the idle session; data.csv, sheet.xlsx and doc.pdf each select their
extraction strategy. -/
theorem ingestion_dispatch_witness :
    ((handleFileSelect initialSession ⟨"report.docx"⟩
          ⟨Except.ok "t", Except.ok "t", Except.ok "t",
            Except.ok ⟨"", [], [], [], []⟩⟩).error = some unsupportedMsg ∧
      (handleFileSelect initialSession ⟨"report.docx"⟩
          ⟨Except.ok "t", Except.ok "t", Except.ok "t",
            Except.ok ⟨"", [], [], [], []⟩⟩).fileData = none ∧
      (handleFileSelect initialSession ⟨"report.docx"⟩
          ⟨Except.ok "t", Except.ok "t", Except.ok "t",
            Except.ok ⟨"", [], [], [], []⟩⟩).analysis = none ∧
      (handleFileSelect initialSession ⟨"report.docx"⟩
          ⟨Except.ok "t", Except.ok "t", Except.ok "t",
            Except.ok ⟨"", [], [], [], []⟩⟩).isProcessing = false) ∧
    extractContent "data.csv"
        ⟨Except.ok "a,b", Except.error "x", Except.error "x",
          Except.error "y"⟩ =
      (Except.ok "a,b" : Except String String).map parseCSV ∧
    extractContent "sheet.xlsx"
        ⟨Except.error "x", Except.ok "cells", Except.error "x",
          Except.error "y"⟩ =
      Except.ok "cells" ∧
    extractContent "doc.pdf"
        ⟨Except.error "x", Except.error "x", Except.ok "pages",
          Except.error "y"⟩ =
      Except.ok "pages" :=
  ⟨ingestion_dispatch.1 initialSession ⟨"report.docx"⟩
      ⟨Except.ok "t", Except.ok "t", Except.ok "t",
        Except.ok ⟨"", [], [], [], []⟩⟩ rfl rfl (by decide),
   ingestion_dispatch.2.1 "data.csv"
      ⟨Except.ok "a,b", Except.error "x", Except.error "x",
        Except.error "y"⟩ (by decide),
   ingestion_dispatch.2.2.1 "sheet.xlsx"
      ⟨Except.error "x", Except.ok "cells", Except.error "x",
        Except.error "y"⟩ (Or.inl (by decide)),
   ingestion_dispatch.2.2.2 "doc.pdf"
      ⟨Except.error "x", Except.error "x", Except.ok "pages",
        Except.error "y"⟩ (by decide)⟩

end DataAnalysis
